import Mathlib

/-!
Verification of mwdblib's authenticated request/retry engine
(`mwdblib/api/api.py`) and its lazy entity model (`mwdblib/object.py`),
shallowly embedded in Lean.

The transport engine is modelled as a state-passing loop over an explicit
list of server answers: each element of the list is the outcome of one
dispatched HTTP attempt (`perform_request` together with the error mapping
of `mwdblib/exc.py:map_http_error`).  A run returns the trace of performed
side effects (HTTP calls and sleeps), the final client state, the result
(success / raised error / still looping when the answer list is exhausted)
and the unconsumed answers.  Python's `base64`/`json` decoding of JWT
segments is an external collaborator and is passed in as a `decode`
oracle; everything else is translated directly from the source.
-/

namespace Mwdblib

/-- JSON-like values, as parsed from MWDB REST API response bodies. -/
inductive Val where
  | null
  | bool (b : Bool)
  | num (n : Int)
  | str (s : String)
  | arr (items : List Val)
  | obj (fields : List (String × Val))

/-- Key lookup in a JSON object / Python dict (keys are unique in a dict,
so first match is the match). -/
def lookupKey : List (String × Val) → String → Option Val
  | [], _ => none
  | (k1, v) :: rest, k => if k1 = k then some v else lookupKey rest k

/-- `body[key]` on an object value; `none` models Python's
`KeyError`/`TypeError` on a missing key or non-dict value. -/
def Val.lookup : Val → String → Option Val
  | .obj fields, k => lookupKey fields k
  | _, _ => none

/-- The error taxonomy of `mwdblib/exc.py` (`map_http_error`), plus
`unsupportedType` for the `RuntimeError` raised by `MWDBObject.create` and
`keyError` for Python `KeyError` (e.g. `session.headers.pop` on a missing
key, or `["token"]` on a body without that key). -/
inductive Err where
  | notAuthenticated
  | invalidCredentials
  | limitExceeded
  | gatewayError
  | connectionError
  | badResponse
  | validationError
  | permissionDenied
  | objectNotFound
  | endpointNotFound
  | typeConflict
  | internalError
  | unsupportedType
  | keyError
deriving DecidableEq

/-- `JWTAuthToken` (api.py lines 30-52): the raw token string and its two
decoded JSON segments.  The base64 + JSON decoding done by Python's
standard library in `__init__` is treated as an external collaborator
(see the `decode` oracle below); what matters here is which decoded
segment each property consults. -/
structure JWTAuthToken where
  value : String
  header : List (String × Val)
  payload : List (String × Val)

/-- `JWTAuthToken.is_expired` (api.py lines 43-48).  The code consults the
`exp` claim of the decoded *header* segment (`self.header`), not the
payload: when the header has no `exp` key the token is reported as not
expired, whatever the payload says.  `datetime.datetime.utcnow().timestamp()`
is the `now` parameter.  (A non-numeric `exp` would make the Python
comparison raise; the claims only involve numeric or absent `exp`.) -/
def JWTAuthToken.is_expired (tok : JWTAuthToken) (now : Int) : Bool :=
  match lookupKey tok.header "exp" with
  | some (.num e) => decide (now ≥ e)
  | _ => false

/-- `JWTAuthToken.username` (api.py lines 50-52): `payload["login"]`;
`none` models the `KeyError` on a payload without `login`. -/
def JWTAuthToken.username (tok : JWTAuthToken) : Option Val :=
  lookupKey tok.payload "login"

/-- The retry-relevant fields of `APIClientOptions`
(`mwdblib/api/options.py`), with their declared defaults.  `api_url`,
`verify_ssl` and the keyring/config plumbing only affect which URL is
dialled and are not part of any claim; `username`/`password` live in the
options bag in Python but are mutated by `login`, so they are kept in
`ClientState` below. -/
structure APIClientOptions where
  obey_ratelimiter : Bool := true
  retry_on_downtime : Bool := false
  max_downtime_retries : Nat := 5
  downtime_timeout : Nat := 10
  retry_idempotent : Bool := true

/-- Mutable client state: `APIClient.auth_token`, the session's
`Authorization` header, and the remembered `options.username` /
`options.password`. -/
structure ClientState where
  auth_token : Option JWTAuthToken
  authorization : Option String
  username : Option String
  password : Option String

/-- The segment decoding performed by `JWTAuthToken.__init__`
(`value.split(".")` + `base64.b64decode` + `json.loads`): an oracle from
the token string to the decoded token, failing with
`InvalidCredentialsError` on a malformed token. -/
def DecodeOracle : Type := String → Except Err JWTAuthToken

/-- `APIClient.set_auth_token` (api.py lines 124-128): decode the token
(which can raise), store it and set the `Authorization: Bearer` header. -/
def set_auth_token (decode : DecodeOracle) (st : ClientState)
    (auth_key : String) : Except Err ClientState :=
  match decode auth_key with
  | .error e => .error e
  | .ok tok =>
      .ok { st with auth_token := some tok,
                    authorization := some ("Bearer " ++ auth_key) }

/-- `APIClient.logout` (api.py lines 163-168): drop the token and pop the
`Authorization` header; `session.headers.pop` raises `KeyError` when the
header was never set. -/
def logout (st : ClientState) : Except Err ClientState :=
  match st.authorization with
  | none => .error .keyError
  | some _ => .ok { st with auth_token := none, authorization := none }

/-- The outcome of one dispatched HTTP attempt, i.e. `perform_request`
after `map_http_error`:
* `ok body`: 2xx with a JSON body;
* `okBad`: 2xx whose body is not valid JSON (`response.json()` raises);
* `http401`: mapped to `NotAuthenticatedError`;
* `http429`: mapped to `LimitExceededError`, carrying the parsed
  `Retry-After` response header when present;
* `gateway`: HTTP 502/504, mapped to `GatewayError`;
* `connError`: `requests.exceptions.ConnectionError`;
* `failed e`: any other mapped, non-retryable error
  (400/403/404/409/5xx → validation, permission, not-found, conflict,
  internal, invalid-credentials errors). -/
inductive SResp where
  | ok (body : Val)
  | okBad
  | http401
  | http429 (retryAfter : Option Nat)
  | gateway
  | connError
  | failed (e : Err)

/-- Observable side effects of a run: one `httpCall` per dispatched
attempt (with the request's JSON body, when any) and one `sleep` per
`time.sleep`. -/
inductive Event where
  | httpCall (method : String) (endpoint : String) (body : Option Val)
  | sleep (seconds : Nat)

/-- Result of a run of `request`: parsed JSON on success (`raw=False`),
raw bytes (`raw=True`, content abstracted), a raised error, or `pending`
when the supplied list of server answers was exhausted while the
`while True` loop was still going. -/
inductive RResult where
  | success (body : Val)
  | rawContent
  | raised (e : Err)
  | pending

/-- A finished run: emitted events, final client state, result, and the
server answers left unconsumed. -/
structure RunResult where
  trace : List Event
  state : ClientState
  result : RResult
  rest : List SResp

/-- The JSON body sent by `APIClient.login`:
`{"login": username, "password": password}` (api.py lines 141-143);
`options.username` can be `None`. -/
def loginBody (username : Option String) (password : String) : Val :=
  .obj [("login", match username with | some u => .str u | none => .null),
        ("password", .str password)]

/-- Sleep length for a 429 (api.py lines 256-261): the parsed
`Retry-After` header, or 60 when the header is absent. -/
def retryAfterSeconds : Option Nat → Nat
  | some s => s
  | none => 60

/-- The `while True` retry loop of `APIClient.request` (api.py lines
231-282), one iteration per consumed server answer.  `fuel` is a bound on
the number of loop iterations: callers pass `resps.length + 1`, which the
loop never exhausts before the answers, so `pending` means the answer
list ran out.  `dr` is the local `downtime_retries` counter.  A 401
answer runs `logout`, re-raises when no password is remembered, and
otherwise performs `self.login(self.options.username,
self.options.password)` — a recursive `request` of
`POST auth/login` (noauth, fresh downtime budget) followed by
`set_auth_token` and storing the credentials back into the options —
before retrying the original request with the same `dr`. -/
def requestGo (opts : APIClientOptions) (decode : DecodeOracle)
    (raw : Bool) (method endpoint : String) (body : Option Val)
    (fuel : Nat) (st : ClientState) (dr : Nat) (resps : List SResp) :
    RunResult :=
  match fuel, resps with
  | 0, _ => ⟨[], st, .pending, resps⟩
  | _ + 1, [] => ⟨[], st, .pending, []⟩
  | f + 1, r :: rest =>
    let inner : RunResult :=
      match r with
      | .ok respBody =>
          ⟨[], st, if raw then .rawContent else .success respBody, rest⟩
      | .okBad =>
          ⟨[], st, if raw then .rawContent else .raised .badResponse, rest⟩
      | .failed e => ⟨[], st, .raised e, rest⟩
      | .http401 =>
          match logout st with
          | .error e => ⟨[], st, .raised e, rest⟩
          | .ok st1 =>
            match st1.password with
            | none => ⟨[], st1, .raised .notAuthenticated, rest⟩
            | some pw =>
              let lr := requestGo opts decode false "post" "auth/login"
                  (some (loginBody st1.username pw))
                  f st1 opts.max_downtime_retries rest
              match lr.result with
              | .success lbody =>
                match lbody.lookup "token" with
                | some (.str tokenStr) =>
                  match set_auth_token decode lr.state tokenStr with
                  | .ok st2 =>
                    let st3 := { st2 with username := st1.username,
                                          password := some pw }
                    let cont := requestGo opts decode raw method endpoint
                        body f st3 dr lr.rest
                    ⟨lr.trace ++ cont.trace, cont.state, cont.result,
                     cont.rest⟩
                  | .error e => ⟨lr.trace, lr.state, .raised e, lr.rest⟩
                | _ => ⟨lr.trace, lr.state, .raised .keyError, lr.rest⟩
              | other => ⟨lr.trace, lr.state, other, lr.rest⟩
      | .http429 retryAfter =>
          if !opts.obey_ratelimiter then
            ⟨[], st, .raised .limitExceeded, rest⟩
          else
            let cont := requestGo opts decode raw method endpoint body
                f st dr rest
            ⟨Event.sleep (retryAfterSeconds retryAfter) :: cont.trace,
             cont.state, cont.result, cont.rest⟩
      | .gateway =>
          if !opts.retry_on_downtime || dr == 0
              || (!opts.retry_idempotent && method == "post") then
            ⟨[], st, .raised .gatewayError, rest⟩
          else
            let cont := requestGo opts decode raw method endpoint body
                f st (dr - 1) rest
            ⟨Event.sleep opts.downtime_timeout :: cont.trace,
             cont.state, cont.result, cont.rest⟩
      | .connError =>
          if !opts.retry_on_downtime || dr == 0
              || (!opts.retry_idempotent && method == "post") then
            ⟨[], st, .raised .connectionError, rest⟩
          else
            let cont := requestGo opts decode raw method endpoint body
                f st (dr - 1) rest
            ⟨Event.sleep opts.downtime_timeout :: cont.trace,
             cont.state, cont.result, cont.rest⟩
    ⟨Event.httpCall method endpoint body :: inner.trace, inner.state,
     inner.result, inner.rest⟩

/-- `APIClient.request` (api.py lines 183-282): the pre-flight
authentication check (`noauth=False` and no token set raises
`NotAuthenticatedError` before any HTTP call), then the retry loop with
the local `downtime_retries` budget initialised from the options. -/
def request (opts : APIClientOptions) (decode : DecodeOracle)
    (noauth raw : Bool) (method endpoint : String) (body : Option Val)
    (st : ClientState) (resps : List SResp) : RunResult :=
  if !noauth && st.auth_token.isNone then
    ⟨[], st, .raised .notAuthenticated, resps⟩
  else
    requestGo opts decode raw method endpoint body (resps.length + 1) st
      opts.max_downtime_retries resps

/-- `APIClient.login` (api.py lines 130-147):
`token = self.post("auth/login", json=..., noauth=True)["token"]`, then
`set_auth_token(token)` and only then are `options.username` /
`options.password` overwritten.  Any error from the exchange propagates
with whatever state the retry machinery left behind. -/
def login (opts : APIClientOptions) (decode : DecodeOracle)
    (st : ClientState) (username : Option String) (password : String)
    (resps : List SResp) : RunResult :=
  let r := request opts decode true false "post" "auth/login"
      (some (loginBody username password)) st resps
  match r.result with
  | .success lbody =>
    match lbody.lookup "token" with
    | some (.str tokenStr) =>
      match set_auth_token decode r.state tokenStr with
      | .ok st1 =>
          ⟨r.trace,
           { st1 with username := username, password := some password },
           .success lbody, r.rest⟩
      | .error e => ⟨r.trace, r.state, .raised e, r.rest⟩
    | _ => ⟨r.trace, r.state, .raised .keyError, r.rest⟩
  | _ => r

/-! ## Lazy entity model (`mwdblib/object.py`)

An entity's cache `self.data` is a Python dict; it is modelled as an
association list with unique keys, with `dict.update` / `del` semantics
given by `setKey` / `expireKey`.  Network traffic of the entity layer is
observed through a `server` oracle (URL → response body) and explicit
call counts / call lists; transport errors would simply propagate and are
not relevant to the cache claims. -/

/-- The `self.data` field cache of `MWDBElement`. -/
abbrev MWDBElementData := List (String × Val)

/-- `d[k] = v` on a dict: overwrite the entry when the key is present,
append it otherwise. -/
def setKey : MWDBElementData → String → Val → MWDBElementData
  | [], k, v => [(k, v)]
  | (k1, v1) :: rest, k, v =>
      if k1 = k then (k, v) :: rest else (k1, v1) :: setKey rest k v

/-- `self.data.update(upd)`: set every key of `upd` in order. -/
def updateData (d : MWDBElementData) (upd : List (String × Val)) :
    MWDBElementData :=
  upd.foldl (fun acc kv => setKey acc kv.1 kv.2) d

/-- `MWDBElement._expire` (object.py lines 37-42):
`if key in self.data: del self.data[key]`. -/
def expireKey (d : MWDBElementData) (k : String) : MWDBElementData :=
  d.filter (fun kv => kv.1 ≠ k)

/-- Fields of a JSON object body, for `self.data.update(data)` when no
mapper is given (a non-object body would raise in Python; the claims only
use object bodies there). -/
def objFields : Val → List (String × Val)
  | .obj fields => fields
  | _ => []

/-- `MWDBElement._load` (object.py lines 26-35): GET the URL, apply the
optional mapper, and **merge** the resulting keys into `self.data` via
`dict.update`.  Returns the new cache and the number of HTTP calls
issued (always one). -/
def load (server : String → Val) (url : String)
    (mapper : Option (Val → List (String × Val))) (d : MWDBElementData) :
    MWDBElementData × Nat :=
  let resp := server url
  let upd := match mapper with
    | some m => m resp
    | none => objFields resp
  (updateData d upd, 1)

/-- The `id` component of `"object/{id}/tag".format(**self.data)`:
the cached `id` value as a string (always a sha256 string for real
objects). -/
def idString (d : MWDBElementData) : String :=
  match lookupKey d "id" with
  | some (.str s) => s
  | _ => ""

/-- Outcome of one property read: the cache afterwards, the number of
HTTP calls issued by this read, and the returned value (`none` models a
Python exception while extracting the value). -/
structure ReadResult where
  data : MWDBElementData
  calls : Nat
  value : Option (List String)

/-- `t["tag"]` for one element of the cached tag list. -/
def tagValue : Val → Option String
  | .obj fields =>
      match lookupKey fields "tag" with
      | some (.str s) => some s
      | _ => none
  | _ => none

/-- `[t["tag"] for t in self.data["tags"]]` (object.py line 124). -/
def tagsValue (d : MWDBElementData) : Option (List String) :=
  match lookupKey d "tags" with
  | some (.arr ts) => ts.mapM tagValue
  | _ => none

/-- The `MWDBObject.tags` property (object.py lines 115-124): if `"tags"`
is not cached, `_load("object/{id}/tag", mapper=lambda data: {"tags":
data})`, then read the cached list. -/
def tags (server : String → Val) (d : MWDBElementData) : ReadResult :=
  if (lookupKey d "tags").isSome then
    ⟨d, 0, tagsValue d⟩
  else
    let r := load server ("object/" ++ idString d ++ "/tag")
        (some (fun v => [("tags", v)])) d
    ⟨r.1, r.2, tagsValue r.1⟩

/-- Outcome of a mutator: the cache afterwards and the write calls
issued. -/
structure MutationResult where
  data : MWDBElementData
  writeCalls : List Event

/-- `MWDBObject.add_tag` (object.py lines 296-304): one
`PUT object/{id}/tag` with body `{"tag": tag}`, then
`self._expire("tags")`. -/
def add_tag (d : MWDBElementData) (tag : String) : MutationResult :=
  ⟨expireKey d "tags",
   [Event.httpCall "put" ("object/" ++ idString d ++ "/tag")
      (some (.obj [("tag", .str tag)]))]⟩

/-- `MWDBObject.flush` (object.py lines 451-456): reset the cache to
exactly `{"id": self.data["id"], "type": self.data["type"]}`; `none`
models the `KeyError` when either key is missing. -/
def flush (d : MWDBElementData) : Option MWDBElementData := do
  let idv ← lookupKey d "id"
  let ty ← lookupKey d "type"
  pure [("id", idv), ("type", ty)]

/-- The three concrete entity kinds, selected by the `TYPE` class
constants: `MWDBFile.TYPE = "file"`, `MWDBConfig.TYPE = "static_config"`,
`MWDBBlob.TYPE = "text_blob"`. -/
inductive ObjectKind where
  | file
  | config
  | blob
deriving DecidableEq

/-- `MWDBObject.create` (object.py lines 67-83): inspect `data["type"]`
and wrap `data` in the matching subclass (the constructor stores
`dict(data)`, so the wrapped cache equals the payload); an unrecognised
discriminant raises `RuntimeError("Unsupported object type: ...")`, a
missing one raises `KeyError`. -/
def create (d : MWDBElementData) :
    Except Err (ObjectKind × MWDBElementData) :=
  match lookupKey d "type" with
  | some (.str t) =>
      if t = "file" then .ok (.file, d)
      else if t = "static_config" then .ok (.config, d)
      else if t = "text_blob" then .ok (.blob, d)
      else .error .unsupportedType
  | some _ => .error .unsupportedType
  | none => .error .keyError

/-- `MWDBObject.id` (object.py lines 94-99): `self.data["id"]`. -/
def objectId (d : MWDBElementData) : Option Val :=
  lookupKey d "id"

/-! ## Concrete sample values used by witnesses and counterexamples -/

/-- All-default options (`options.py` defaults). -/
def opts0 : APIClientOptions := {}

/-- A decode oracle accepting every token string with empty decoded
segments — sufficient for runs whose claims do not inspect segments. -/
def sampleDecode : DecodeOracle := fun s => .ok ⟨s, [], []⟩

/-- A token with no `exp` anywhere. -/
def tok0 : JWTAuthToken := ⟨"t0", [], []⟩

/-- The C1 scenario token `"AA.BB.CC"`: the payload decodes to
`{"login": "alice", "exp": 1000}` with `1000` in the past (the `now`
used below is `2000`), while the header carries no `exp`. -/
def pastExpTok : JWTAuthToken :=
  ⟨"AA.BB.CC", [], [("login", .str "alice"), ("exp", .num 1000)]⟩

/-- A client holding the C1 scenario token, no remembered credentials. -/
def stPastExp : ClientState :=
  ⟨some pastExpTok, some "Bearer AA.BB.CC", none, none⟩

/-- A client with no token and no credentials. -/
def stNone : ClientState := ⟨none, none, none, none⟩

/-- A client with a token but no remembered password. -/
def stTok : ClientState := ⟨some tok0, some "Bearer t0", none, none⟩

/-- A client with a token and remembered credentials. -/
def stCred : ClientState :=
  ⟨some tok0, some "Bearer t0", some "alice", some "pw"⟩

/-- Options with downtime retrying on, a budget of one retry, and
`retry_idempotent` disabled. -/
def optsNonIdem : APIClientOptions :=
  { retry_on_downtime := true, max_downtime_retries := 1,
    retry_idempotent := false }

/-- Options with downtime retrying on and a budget of two retries. -/
def optsDowntime : APIClientOptions :=
  { retry_on_downtime := true, max_downtime_retries := 2 }

/-- A payload for `create` with a `file` discriminant. -/
def sampleFileData : MWDBElementData :=
  [("id", .str "X"), ("type", .str "file")]

/-! ## Scenario shapes used in statements about the retry loop -/

/-- A login-exchange success body `{"token": tokenStr}`. -/
def tokenOkBody (tokenStr : String) : Val :=
  .obj [("token", .str tokenStr)]

/-- `n` rounds of "401 on the original request, then a successful token
exchange on the re-login". -/
def cycleResponses (tokenStr : String) (n : Nat) : List SResp :=
  (List.replicate n [SResp.http401, SResp.ok (tokenOkBody tokenStr)]).flatten

/-- Expected trace for `n` 401/re-login rounds followed by one final
successful attempt: per round, exactly one attempt of the original
request and exactly one `POST auth/login` with the remembered
credentials. -/
def c3Trace (method endpoint : String) (body : Option Val)
    (username : Option String) (pw : String) (n : Nat) : List Event :=
  (List.replicate n [Event.httpCall method endpoint body,
      Event.httpCall "post" "auth/login"
        (some (loginBody username pw))]).flatten
    ++ [Event.httpCall method endpoint body]

/-- Client state after at least one successful re-login with token
`tokenStr` decoding to `tok`: the old token was dropped and replaced,
the remembered credentials are unchanged. -/
def c3State (tok : JWTAuthToken) (tokenStr : String)
    (st : ClientState) : ClientState :=
  { auth_token := some tok,
    authorization := some ("Bearer " ++ tokenStr),
    username := st.username,
    password := st.password }

/-! ## Cache lemmas -/

/-- Looking a key up after a dict assignment. -/
theorem lookupKey_setKey (d : MWDBElementData) (k : String) (v : Val)
    (g : String) :
    lookupKey (setKey d k v) g = if g = k then some v else lookupKey d g := by
  induction d with
  | nil =>
      by_cases h : g = k
      · simp [setKey, lookupKey, h]
      · have h' : ¬k = g := fun hg => h hg.symm
        simp [setKey, lookupKey, h, h']
  | cons kv rest ih =>
      obtain ⟨k1, v1⟩ := kv
      by_cases h1 : k1 = k
      · subst h1
        by_cases h : k1 = g
        · subst h
          simp [setKey, lookupKey]
        · have h' : ¬g = k1 := fun hg => h hg.symm
          simp [setKey, lookupKey, h, h']
      · by_cases h : k1 = g
        · subst h
          have h' : ¬k1 = k := h1
          simp [setKey, lookupKey, h1, h']
        · have h' : ¬g = k1 := fun hg => h hg.symm
          simp [setKey, lookupKey, h1, h, h', ih]

/-- `dict.update` never removes a key. -/
theorem lookupKey_updateData_isSome (upd : List (String × Val)) :
    ∀ (d : MWDBElementData) (g : String),
      (lookupKey d g).isSome → (lookupKey (updateData d upd) g).isSome := by
  induction upd with
  | nil => intro d g h; simpa [updateData] using h
  | cons kv upd' ih =>
      intro d g h
      have : (lookupKey (setKey d kv.1 kv.2) g).isSome := by
        rw [lookupKey_setKey]
        by_cases hg : g = kv.1 <;> simp [hg, h]
      simpa [updateData, List.foldl_cons] using
        ih (setKey d kv.1 kv.2) g this

/-- Looking a key up after `_expire`. -/
theorem lookupKey_expireKey (d : MWDBElementData) (k0 g : String) :
    lookupKey (expireKey d k0) g =
      if g = k0 then none else lookupKey d g := by
  induction d with
  | nil => by_cases h : g = k0 <;> simp [expireKey, lookupKey, h]
  | cons kv rest ih =>
      obtain ⟨k1, v1⟩ := kv
      by_cases h1 : k1 = k0
      · subst h1
        by_cases h : g = k1
        · subst h
          simpa [expireKey, lookupKey, List.filter_cons] using ih
        · have h' : ¬k1 = g := fun hg => h hg.symm
          simpa [expireKey, lookupKey, List.filter_cons, h, h'] using ih
      · by_cases h : g = k1
        · subst h
          have h2 : ¬g = k0 := h1
          simp [expireKey, lookupKey, List.filter_cons, h1, h2]
        · have h' : ¬k1 = g := fun hg => h hg.symm
          simpa [expireKey, lookupKey, List.filter_cons, h1, h'] using ih

/-! ## Retry-loop lemmas -/

/-- With downtime retrying enabled (and the request idempotent or
`retry_idempotent` set), a run of `d` remaining downtime retries against
`d + 1` consecutive gateway answers performs `d + 1` attempts with a
`downtime_timeout` sleep before each retry, leaves the client state
untouched, and raises `GatewayError`. -/
theorem requestGo_gateway_exhaust (opts : APIClientOptions)
    (decode : DecodeOracle) (raw : Bool) (method endpoint : String)
    (body : Option Val)
    (hrd : opts.retry_on_downtime = true)
    (hid : opts.retry_idempotent = true ∨ method ≠ "post") :
    ∀ (d fuel : Nat) (st : ClientState), d + 1 ≤ fuel →
      requestGo opts decode raw method endpoint body fuel st d
          (List.replicate (d + 1) SResp.gateway) =
        ⟨Event.httpCall method endpoint body ::
           (List.replicate d [Event.sleep opts.downtime_timeout,
              Event.httpCall method endpoint body]).flatten,
         st, .raised .gatewayError, []⟩ := by
  have hguard : ∀ d : Nat,
      (!opts.retry_on_downtime || (d + 1) == 0
        || (!opts.retry_idempotent && method == "post")) = false := by
    intro d
    rcases hid with h | h
    · simp [hrd, h]
    · simp [hrd, h]
  intro d
  induction d with
  | zero =>
      intro fuel st hfuel
      match fuel, hfuel with
      | f + 1, _ => simp [requestGo, List.replicate, hrd]
  | succ d ih =>
      intro fuel st hfuel
      match fuel, hfuel with
      | f + 1, hfuel =>
        have hf : d + 1 ≤ f := by omega
        conv_lhs => rw [List.replicate_succ]
        simp only [requestGo, hguard d, Bool.false_eq_true, if_false,
          Nat.add_sub_cancel, ih f st hf]
        simp [List.replicate_succ]

/-- With `obey_ratelimiter` on, the loop absorbs every 429 answer:
each one costs one attempt and one sleep, and `n` consecutive 429
answers leave the loop still running (no error is raised, whatever `n`
is), with the state and the downtime budget untouched. -/
theorem requestGo_ratelimit_pending (opts : APIClientOptions)
    (decode : DecodeOracle) (raw : Bool) (method endpoint : String)
    (body : Option Val) (hobey : opts.obey_ratelimiter = true)
    (after : Option Nat) :
    ∀ (n fuel : Nat) (st : ClientState) (dr : Nat), n ≤ fuel →
      requestGo opts decode raw method endpoint body fuel st dr
          (List.replicate n (SResp.http429 after)) =
        ⟨(List.replicate n [Event.httpCall method endpoint body,
            Event.sleep (retryAfterSeconds after)]).flatten,
         st, .pending, []⟩ := by
  intro n
  induction n with
  | zero =>
      intro fuel st dr _
      cases fuel <;> simp [requestGo]
  | succ n ih =>
      intro fuel st dr hfuel
      match fuel, hfuel with
      | f + 1, hfuel =>
        have hf : n ≤ f := by omega
        conv_lhs => rw [List.replicate_succ]
        simp only [requestGo, hobey, Bool.not_true, Bool.false_eq_true,
          if_false, ih f st dr hf]
        simp [List.replicate_succ]

/-- The 401 auto-recovery rounds: with a remembered password and a
well-formed token exchange, each 401 answer triggers the drop of the
current token, exactly one `POST auth/login` with the remembered
credentials, installation of the fresh token, and exactly one retry of
the original request, with the downtime budget untouched. -/
theorem requestGo_relogin (opts : APIClientOptions)
    (decode : DecodeOracle) (method endpoint : String) (body : Option Val)
    (pw tokenStr : String) (tok : JWTAuthToken)
    (hdec : decode tokenStr = .ok tok) :
    ∀ (n : Nat) (fuel : Nat) (st : ClientState) (dr : Nat) (final : Val)
      (a : String),
      2 * n + 1 ≤ fuel →
      st.password = some pw →
      st.authorization = some a →
      requestGo opts decode false method endpoint body fuel st dr
          (cycleResponses tokenStr n ++ [SResp.ok final]) =
        ⟨c3Trace method endpoint body st.username pw n,
         (if n = 0 then st else c3State tok tokenStr st),
         .success final, []⟩ := by
  intro n
  induction n with
  | zero =>
      intro fuel st dr final a hfuel hpw ha
      match fuel, hfuel with
      | f + 1, _ =>
        simp [cycleResponses, c3Trace, requestGo, List.replicate]
  | succ n ih =>
      intro fuel st dr final a hfuel hpw ha
      match fuel, hfuel with
      | f + 1, hfuel =>
        have hf : 2 * n + 2 ≤ f := by omega
        match f, hf with
        | g + 1, hf =>
          have hg : 2 * n + 1 ≤ g + 1 := by omega
          have hcyc : cycleResponses tokenStr (n + 1) ++ [SResp.ok final]
              = SResp.http401 :: SResp.ok (tokenOkBody tokenStr) ::
                (cycleResponses tokenStr n ++ [SResp.ok final]) := by
            simp [cycleResponses, List.replicate_succ]
          rw [hcyc]
          have hst1 :
              logout st = .ok { st with auth_token := none,
                                        authorization := none } := by
            simp [logout, ha]
          have htok : Val.lookup (tokenOkBody tokenStr) "token"
              = some (Val.str tokenStr) := rfl
          have hcont := ih (g + 1)
            ⟨some tok, some ("Bearer " ++ tokenStr), st.username, some pw⟩
            dr final ("Bearer " ++ tokenStr) hg rfl rfl
          simp only [requestGo, hst1, hpw, hdec, set_auth_token, htok,
            Bool.false_eq_true, if_false, hcont]
          have htr : c3Trace method endpoint body st.username pw (n + 1)
              = Event.httpCall method endpoint body ::
                Event.httpCall "post" "auth/login"
                  (some (loginBody st.username pw)) ::
                c3Trace method endpoint body st.username pw n := by
            simp [c3Trace, List.replicate_succ]
          rw [htr]
          by_cases hn : n = 0
          · subst hn
            simp [c3State, hpw]
          · simp [hn, c3State, hpw]

/-- Length of the 401/re-login answer shape. -/
theorem cycleResponses_length (tokenStr : String) (n : Nat) :
    (cycleResponses tokenStr n).length = 2 * n := by
  induction n with
  | zero => rfl
  | succ n ih =>
      simp [cycleResponses, List.replicate_succ] at ih ⊢
      omega

/-! ## Claims -/

/-- C1 (amended): `request` raises `NotAuthenticated` before any HTTP
call exactly when `noauth=False` and no auth token object is set at all;
whenever any token object is set — expired or not — the first action of
the run is an HTTP dispatch; and `is_expired` is a function of the
token's decoded *header* segment only, so an `exp` in the decoded
payload is never consulted. -/
theorem c1_preflight_checks_presence_not_expiry (opts : APIClientOptions)
    (decode : DecodeOracle) (raw : Bool) (method endpoint : String)
    (body : Option Val) (st : ClientState) (resps : List SResp) :
    (st.auth_token = none →
      request opts decode false raw method endpoint body st resps =
        ⟨[], st, .raised .notAuthenticated, resps⟩)
  ∧ (∀ (t : JWTAuthToken) (r : SResp) (rest : List SResp),
      st.auth_token = some t → resps = r :: rest →
      (request opts decode false raw method endpoint body st
          resps).trace.head?
        = some (.httpCall method endpoint body))
  ∧ (∀ (t t' : JWTAuthToken) (now : Int), t.header = t'.header →
      t.is_expired now = t'.is_expired now) := by
  refine ⟨fun h => by simp [request, h], fun t r rest ht hr => ?_,
    fun t t' now hh => by simp [JWTAuthToken.is_expired, hh]⟩
  subst hr
  simp [request, ht, requestGo]

/-- C1 witness: a client with no token and a required-auth request fails
pre-flight with no HTTP call. -/
theorem c1_witness :
    request opts0 sampleDecode false false "get" "object" none stNone [] =
      ⟨[], stNone, .raised .notAuthenticated, []⟩ :=
  (c1_preflight_checks_presence_not_expiry opts0 sampleDecode false "get"
    "object" none stNone []).1 rfl

/-- C1 counterexample: the scenario token whose *payload* decodes to
`login = alice, exp = 1000` with the current time `2000` past that `exp`
is reported not expired (`is_expired = false`, since the code reads the
header, which has no `exp`), and a required-auth request holding that
token performs its HTTP call and succeeds instead of raising
`NotAuthenticated` beforehand. -/
theorem c1_counterexample :
    pastExpTok.is_expired 2000 = false
  ∧ request opts0 sampleDecode false false "get" "object" none stPastExp
        [SResp.ok .null] =
      ⟨[.httpCall "get" "object" none], stPastExp, .success .null, []⟩ :=
  ⟨rfl, rfl⟩

/-- C2 (amended): with `retry_on_downtime` enabled,
`max_downtime_retries = N`, and the request idempotent or
`retry_idempotent` enabled, a request whose every attempt fails with an
HTTP 502/504 gateway error raises `GatewayError` after exactly `N`
retries (`N + 1` attempts), each retry preceded by a sleep of
`downtime_timeout` seconds; the client state is left unchanged. -/
theorem c2_gateway_retry_bound (opts : APIClientOptions)
    (decode : DecodeOracle) (raw : Bool) (method endpoint : String)
    (body : Option Val) (st : ClientState) (N : Nat)
    (hN : opts.max_downtime_retries = N)
    (hrd : opts.retry_on_downtime = true)
    (hid : opts.retry_idempotent = true ∨ method ≠ "post")
    (hauth : st.auth_token ≠ none) :
    request opts decode false raw method endpoint body st
        (List.replicate (N + 1) SResp.gateway) =
      ⟨Event.httpCall method endpoint body ::
         (List.replicate N [Event.sleep opts.downtime_timeout,
            Event.httpCall method endpoint body]).flatten,
       st, .raised .gatewayError, []⟩ := by
  have h0 : st.auth_token.isNone = false := by
    cases h : st.auth_token <;> simp_all
  have hmain := requestGo_gateway_exhaust opts decode raw method endpoint
    body hrd hid N (N + 1 + 1) st (by omega)
  simp only [request, h0, Bool.and_false, Bool.false_eq_true, if_false,
    List.length_replicate, hN]
  exact hmain

/-- C2 witness: budget of 2 downtime retries against three consecutive
gateway failures on an idempotent request: three attempts, two
`downtime_timeout` sleeps, then `GatewayError`. -/
theorem c2_witness :
    request optsDowntime sampleDecode false false "get" "object" none
        stTok (List.replicate 3 SResp.gateway) =
      ⟨[.httpCall "get" "object" none, .sleep 10,
        .httpCall "get" "object" none, .sleep 10,
        .httpCall "get" "object" none],
       stTok, .raised .gatewayError, []⟩ :=
  c2_gateway_retry_bound optsDowntime sampleDecode false "get" "object"
    none stTok 2 rfl rfl (Or.inl rfl) (by simp [stTok])

/-- C2 counterexample: an `APIClient` with `retry_on_downtime = true` and
`max_downtime_retries = 1` whose every attempt fails with a connection
error, issuing a POST with `retry_idempotent = false`: the code re-raises
the `ConnectionError` itself after a single attempt and zero retries,
not `GatewayError` after exactly one retry as the claim states. -/
theorem c2_counterexample :
    request optsNonIdem sampleDecode false false "post" "object" none
        stTok [SResp.connError] =
      ⟨[.httpCall "post" "object" none], stTok,
       .raised .connectionError, []⟩
  ∧ RResult.raised .connectionError ≠ RResult.raised .gatewayError :=
  ⟨rfl, by simp⟩

/-- C3: server-side 401 handling. With a remembered password, each 401
detection drops the current token, performs exactly one re-login call
(`POST auth/login` with the remembered username/password), installs the
returned token, and retries the original request exactly once; with no
remembered password, the token is dropped and the 401 is re-raised. -/
theorem c3_auth_auto_recovery (opts : APIClientOptions)
    (decode : DecodeOracle) (method endpoint : String) (body : Option Val)
    (st : ClientState) (pw tokenStr a : String) (tok : JWTAuthToken)
    (final : Val) (n : Nat)
    (hdec : decode tokenStr = .ok tok)
    (hauth : st.auth_token ≠ none)
    (ha : st.authorization = some a) :
    (st.password = some pw →
      request opts decode false false method endpoint body st
          (cycleResponses tokenStr n ++ [SResp.ok final]) =
        ⟨c3Trace method endpoint body st.username pw n,
         (if n = 0 then st else c3State tok tokenStr st),
         .success final, []⟩)
  ∧ (st.password = none →
      request opts decode false false method endpoint body st
          [SResp.http401] =
        ⟨[Event.httpCall method endpoint body],
         { st with auth_token := none, authorization := none },
         .raised .notAuthenticated, []⟩) := by
  have h0 : st.auth_token.isNone = false := by
    cases h : st.auth_token <;> simp_all
  constructor
  · intro hpw
    have hb : 2 * n + 1 ≤
        (cycleResponses tokenStr n ++ [SResp.ok final]).length + 1 := by
      simp [cycleResponses_length]
    have h := requestGo_relogin opts decode method endpoint body pw
      tokenStr tok hdec n _ st opts.max_downtime_retries final a hb hpw ha
    simp only [request, h0, Bool.and_false, Bool.false_eq_true, if_false]
    exact h
  · intro hpw
    simp [request, h0, requestGo, logout, ha, hpw]

/-- C3 witness: one 401 with remembered credentials: exactly one
re-login with those credentials, exactly one retry, fresh token
installed. -/
theorem c3_witness :
    request opts0 sampleDecode false false "get" "object" none stCred
        (cycleResponses "T" 1 ++ [SResp.ok .null]) =
      ⟨[.httpCall "get" "object" none,
        .httpCall "post" "auth/login"
          (some (loginBody (some "alice") "pw")),
        .httpCall "get" "object" none],
       ⟨some ⟨"T", [], []⟩, some "Bearer T", some "alice", some "pw"⟩,
       .success .null, []⟩ :=
  (c3_auth_auto_recovery opts0 sampleDecode "get" "object" none stCred
    "pw" "T" "Bearer t0" ⟨"T", [], []⟩ .null 1 rfl (by simp [stCred])
    rfl).1 rfl

/-- C4 (amended): only the gateway/connection-error class has a retry
budget.  Under `obey_ratelimiter`, 429 answers are absorbed without any
budget: against a server that always answers 429 the loop is still
retrying after consuming any number `n` of answers and has raised
nothing; `LimitExceeded` reaches the caller only when `obey_ratelimiter`
is disabled, immediately and without retrying.  Gateway errors propagate
exactly when the `max_downtime_retries` budget is exhausted. -/
theorem c4_retry_budgets (opts : APIClientOptions) (decode : DecodeOracle)
    (method endpoint : String) (body : Option Val) (st : ClientState)
    (after : Option Nat) (n N : Nat) :
    (opts.obey_ratelimiter = true → st.auth_token ≠ none →
      (request opts decode false false method endpoint body st
          (List.replicate n (SResp.http429 after))).result = .pending)
  ∧ (opts.obey_ratelimiter = false → st.auth_token ≠ none →
      request opts decode false false method endpoint body st
          [SResp.http429 after] =
        ⟨[Event.httpCall method endpoint body], st,
         .raised .limitExceeded, []⟩)
  ∧ (opts.max_downtime_retries = N → opts.retry_on_downtime = true →
      (opts.retry_idempotent = true ∨ method ≠ "post") →
      st.auth_token ≠ none →
      (request opts decode false false method endpoint body st
          (List.replicate (N + 1) SResp.gateway)).result =
        .raised .gatewayError) := by
  refine ⟨fun hobey hauth => ?_, fun hobey hauth => ?_,
    fun hN hrd hid hauth => ?_⟩
  · have h0 : st.auth_token.isNone = false := by
      cases h : st.auth_token <;> simp_all
    have h := requestGo_ratelimit_pending opts decode false method
      endpoint body hobey after n (n + 1) st opts.max_downtime_retries
      (by omega)
    simp only [request, h0, Bool.and_false, Bool.false_eq_true, if_false,
      List.length_replicate]
    rw [h]
  · have h0 : st.auth_token.isNone = false := by
      cases h : st.auth_token <;> simp_all
    simp [request, h0, requestGo, hobey]
  · have h0 : st.auth_token.isNone = false := by
      cases h : st.auth_token <;> simp_all
    have h := requestGo_gateway_exhaust opts decode false method endpoint
      body hrd hid N (N + 1 + 1) st (by omega)
    simp only [request, h0, Bool.and_false, Bool.false_eq_true, if_false,
      List.length_replicate, hN]
    rw [h]

/-- C4 witness: default options, two 429 answers consumed, loop still
pending (no error raised). -/
theorem c4_witness :
    (request opts0 sampleDecode false false "get" "object" none stTok
        (List.replicate 2 (SResp.http429 (some 1)))).result = .pending :=
  (c4_retry_budgets opts0 sampleDecode "get" "object" none stTok (some 1)
    2 0).1 rfl (by simp [stTok])

/-- C4 counterexample: an `APIClient` with default options
(`obey_ratelimiter = true`) against a server that always answers 429:
after consuming five consecutive 429 answers the loop has dispatched and
slept five times and raised nothing — in particular not `LimitExceeded`
— contradicting the claim that the rate-limit class is absorbed only up
to a configured retry budget after which it propagates. -/
theorem c4_counterexample :
    request opts0 sampleDecode false false "get" "object" none stTok
        (List.replicate 5 (SResp.http429 none)) =
      ⟨[.httpCall "get" "object" none, .sleep 60,
        .httpCall "get" "object" none, .sleep 60,
        .httpCall "get" "object" none, .sleep 60,
        .httpCall "get" "object" none, .sleep 60,
        .httpCall "get" "object" none, .sleep 60],
       stTok, .pending, []⟩
  ∧ RResult.pending ≠ RResult.raised .limitExceeded :=
  ⟨rfl, by simp⟩

/-- C5: rate-limit handling: with `obey_ratelimiter`, a 429 answer makes
the loop sleep exactly the seconds given by the response's `Retry-After`
header — 60 when the header is absent — before retrying once; with
`obey_ratelimiter = false`, `LimitExceeded` is raised to the caller with
no sleep and no retry. -/
theorem c5_ratelimit_sleep (opts : APIClientOptions)
    (decode : DecodeOracle) (method endpoint : String) (body : Option Val)
    (st : ClientState) (after : Option Nat) (final : Val)
    (hauth : st.auth_token ≠ none) :
    (opts.obey_ratelimiter = true →
      request opts decode false false method endpoint body st
          [SResp.http429 after, SResp.ok final] =
        ⟨[Event.httpCall method endpoint body,
          Event.sleep (retryAfterSeconds after),
          Event.httpCall method endpoint body],
         st, .success final, []⟩)
  ∧ (opts.obey_ratelimiter = false →
      request opts decode false false method endpoint body st
          [SResp.http429 after] =
        ⟨[Event.httpCall method endpoint body], st,
         .raised .limitExceeded, []⟩)
  ∧ retryAfterSeconds (some 5) = 5 ∧ retryAfterSeconds none = 60 := by
  have h0 : st.auth_token.isNone = false := by
    cases h : st.auth_token <;> simp_all
  refine ⟨fun hobey => ?_, fun hobey => ?_, rfl, rfl⟩
  · simp [request, h0, requestGo, hobey]
  · simp [request, h0, requestGo, hobey]

/-- C5 witness: a 429 with `Retry-After: 5` sleeps 5 seconds, not 60,
then retries. -/
theorem c5_witness :
    request opts0 sampleDecode false false "get" "object" none stTok
        [SResp.http429 (some 5), SResp.ok .null] =
      ⟨[.httpCall "get" "object" none, .sleep 5,
        .httpCall "get" "object" none],
       stTok, .success .null, []⟩ :=
  (c5_ratelimit_sleep opts0 sampleDecode "get" "object" none stTok
    (some 5) .null (by simp [stTok])).1 rfl

/-- C6: the `create` factory selects the entity kind by the `type`
discriminant (`file` / `static_config` / `text_blob`), wrapping the
payload unchanged, so the generic `id` accessor returns exactly the
payload's identity; any other discriminant fails with the
unsupported-type error. -/
theorem c6_create_discriminant (d : MWDBElementData) (idv : Val)
    (t : String)
    (hid : lookupKey d "id" = some idv)
    (hty : lookupKey d "type" = some (.str t)) :
    (t = "file" → create d = .ok (.file, d))
  ∧ (t = "static_config" → create d = .ok (.config, d))
  ∧ (t = "text_blob" → create d = .ok (.blob, d))
  ∧ (t ≠ "file" → t ≠ "static_config" → t ≠ "text_blob" →
      create d = .error .unsupportedType)
  ∧ objectId d = some idv := by
  refine ⟨fun h1 => by simp [create, hty, h1],
    fun h2 => by simp [create, hty, h2],
    fun h3 => by simp [create, hty, h3],
    fun h1 h2 h3 => by simp [create, hty, h1, h2, h3],
    by simp [objectId, hid]⟩

/-- C6 witness: a payload with identity `X` and discriminant `file`
creates a file-kind entity whose identity accessor returns `X`. -/
theorem c6_witness :
    create sampleFileData = .ok (.file, sampleFileData)
  ∧ objectId sampleFileData = some (.str "X") :=
  ⟨(c6_create_discriminant sampleFileData (.str "X") "file" rfl rfl).1
     rfl,
   (c6_create_discriminant sampleFileData (.str "X") "file" rfl
     rfl).2.2.2.2⟩

/-- C7: idempotent lazy load: reading `tags` twice with no intervening
mutator or flush issues at most one HTTP call in total; the second read
issues none and is served from the unchanged cache with the same
value. -/
theorem c7_lazy_load_idempotent (server : String → Val)
    (d : MWDBElementData) :
    (tags server (tags server d).data).calls = 0
  ∧ (tags server (tags server d).data).data = (tags server d).data
  ∧ (tags server (tags server d).data).value = (tags server d).value
  ∧ (tags server d).calls ≤ 1 := by
  by_cases h : (lookupKey d "tags").isSome
  · simp [tags, h]
  · simp [tags, h, load, updateData, lookupKey_setKey]

/-- C8: a lazy `_load` merges the response keys into the cache without
removing any previously cached key, whatever the mapper and the server
response; `flush` resets the cache to exactly the identity and the type
discriminant. -/
theorem c8_load_merges_flush_resets (server : String → Val) (url : String)
    (mapper : Option (Val → List (String × Val))) (d : MWDBElementData)
    (g : String) (idv ty : Val)
    (hg : (lookupKey d g).isSome)
    (hid : lookupKey d "id" = some idv)
    (hty : lookupKey d "type" = some ty) :
    (lookupKey (load server url mapper d).1 g).isSome
  ∧ flush d = some [("id", idv), ("type", ty)] := by
  constructor
  · simp only [load]
    exact lookupKey_updateData_isSome _ d g hg
  · simp [flush, hid, hty]

/-- C8 witness: fetching the tag sub-resource keeps the cached `id`, and
flushing the sample cache leaves exactly its identity and type. -/
theorem c8_witness :
    (lookupKey (load (fun _ => Val.null) "object/X/tag"
        (some (fun v => [("tags", v)])) sampleFileData).1 "id").isSome
  ∧ flush sampleFileData =
      some [("id", .str "X"), ("type", .str "file")] :=
  c8_load_merges_flush_resets (fun _ => Val.null) "object/X/tag"
    (some (fun v => [("tags", v)])) sampleFileData "id" (.str "X")
    (.str "file") rfl rfl rfl

/-- C9: the `add_tag` mutator issues exactly one write request (a PUT to
the object's tag sub-resource with the tag as JSON body) and evicts only
the cached `tags` entry: every other cached key keeps exactly the value
it had before the call. -/
theorem c9_add_tag_frame (d : MWDBElementData) (tag : String) :
    (add_tag d tag).writeCalls =
      [Event.httpCall "put" ("object/" ++ idString d ++ "/tag")
        (some (.obj [("tag", .str tag)]))]
  ∧ lookupKey (add_tag d tag).data "tags" = none
  ∧ ∀ k : String, k ≠ "tags" →
      lookupKey (add_tag d tag).data k = lookupKey d k := by
  refine ⟨rfl, ?_, fun k hk => ?_⟩
  · simp [add_tag, lookupKey_expireKey]
  · simp [add_tag, lookupKey_expireKey, hk]

/-- C9 witness: after `add_tag`, the cached `id` is untouched. -/
theorem c9_witness :
    lookupKey (add_tag sampleFileData "malware").data "id" =
      lookupKey sampleFileData "id" :=
  (c9_add_tag_frame sampleFileData "malware").2.2 "id" (by decide)

/-- C10 (amended): `login` is atomic for every non-401 outcome of the
credential exchange: a mapped non-retryable error (e.g.
`InvalidCredentials`) propagates with the auth token, `Authorization`
header and remembered username/password all exactly as before the call,
and the token is installed and the credentials remembered only after a
successful exchange.  A 401 answer to the exchange request itself,
however, is handled by the retry loop, which drops the current token and
`Authorization` header (re-raising when no password was remembered)
before the error propagates. -/
theorem c10_login_atomic_except_401 (opts : APIClientOptions)
    (decode : DecodeOracle) (st : ClientState) (u : Option String)
    (p : String) (e : Err) (tokenStr a : String) (tok : JWTAuthToken) :
    (login opts decode st u p [SResp.failed e] =
      ⟨[Event.httpCall "post" "auth/login" (some (loginBody u p))], st,
       .raised e, []⟩)
  ∧ (decode tokenStr = .ok tok →
      login opts decode st u p [SResp.ok (tokenOkBody tokenStr)] =
        ⟨[Event.httpCall "post" "auth/login" (some (loginBody u p))],
         ⟨some tok, some ("Bearer " ++ tokenStr), u, some p⟩,
         .success (tokenOkBody tokenStr), []⟩)
  ∧ (st.password = none → st.authorization = some a →
      login opts decode st u p [SResp.http401] =
        ⟨[Event.httpCall "post" "auth/login" (some (loginBody u p))],
         { st with auth_token := none, authorization := none },
         .raised .notAuthenticated, []⟩) := by
  refine ⟨?_, fun hdec => ?_, fun hpw ha => ?_⟩
  · simp [login, request, requestGo]
  · simp [login, request, requestGo, set_auth_token, hdec, tokenOkBody,
      Val.lookup, lookupKey]
  · simp [login, request, requestGo, logout, ha, hpw]

/-- C10 witness: a successful exchange installs the returned token, sets
the Bearer header and remembers the credentials. -/
theorem c10_witness :
    login opts0 sampleDecode stTok (some "alice") "pw"
        [SResp.ok (tokenOkBody "T")] =
      ⟨[.httpCall "post" "auth/login"
          (some (loginBody (some "alice") "pw"))],
       ⟨some ⟨"T", [], []⟩, some "Bearer T", some "alice", some "pw"⟩,
       .success (tokenOkBody "T"), []⟩ :=
  (c10_login_atomic_except_401 opts0 sampleDecode stTok (some "alice")
    "pw" .invalidCredentials "T" "x" ⟨"T", [], []⟩).2.1 rfl

/-- C10 counterexample: a client holding a token but no remembered
password calls `login`; the exchange request is answered with a 401, so
`login` raises — yet the client's auth token is no longer what it was
before the call: the retry loop's logout dropped it, refuting atomicity
for "any error". -/
theorem c10_counterexample :
    (login opts0 sampleDecode stTok (some "alice") "pw"
        [SResp.http401]).result = .raised .notAuthenticated
  ∧ (login opts0 sampleDecode stTok (some "alice") "pw"
        [SResp.http401]).state.auth_token = none
  ∧ stTok.auth_token ≠ none :=
  ⟨rfl, rfl, by simp [stTok]⟩

end Mwdblib
